import Mathlib

/-!
Shallow embedding of the `ray-tracing-webgpu` repository
(`src/util.rs`, `src/geometry/sphere.rs`, `src/camera.rs`, `src/main.rs`)
and proofs about its camera/viewport math, vector algebra, error handling
and GPU command ordering.
-/

/-- Model of the Rust `f32` scalars used by `src/util.rs` and `src/camera.rs`.
Finite values carry an exact rational (IEEE rounding and overflow are
abstracted away, which no theorem below depends on); the IEEE-754 special
values `+inf`, `-inf` and `NaN` are explicit constructors.  Every zero the
embedded code produces is a positive zero, so the model does not
distinguish `-0.0`. -/
inductive FP where
  | fin : ℚ → FP
  | inf : FP
  | ninf : FP
  | nan : FP
  deriving DecidableEq

/-- `true` exactly on finite values (neither infinite nor `NaN`). -/
def FP.isFinite : FP → Bool
  | .fin _ => true
  | _ => false

/-- IEEE-754 negation of an `f32` (`-x` in Rust). -/
def FP.neg : FP → FP
  | .fin q => .fin (-q)
  | .inf => .ninf
  | .ninf => .inf
  | .nan => .nan

/-- IEEE-754 addition of two `f32` values (`x + y` in Rust), with exact
finite arithmetic. -/
def FP.add : FP → FP → FP
  | .nan, _ => .nan
  | _, .nan => .nan
  | .inf, .ninf => .nan
  | .ninf, .inf => .nan
  | .inf, _ => .inf
  | _, .inf => .inf
  | .ninf, _ => .ninf
  | _, .ninf => .ninf
  | .fin a, .fin b => .fin (a + b)

/-- IEEE-754 subtraction of two `f32` values (`x - y` in Rust), with exact
finite arithmetic. -/
def FP.sub : FP → FP → FP
  | .nan, _ => .nan
  | _, .nan => .nan
  | .inf, .inf => .nan
  | .ninf, .ninf => .nan
  | .inf, _ => .inf
  | _, .inf => .ninf
  | .ninf, _ => .ninf
  | _, .ninf => .inf
  | .fin a, .fin b => .fin (a - b)

/-- IEEE-754 multiplication of two `f32` values (`x * y` in Rust), with
exact finite arithmetic. -/
def FP.mul : FP → FP → FP
  | .nan, _ => .nan
  | _, .nan => .nan
  | .inf, .inf => .inf
  | .inf, .ninf => .ninf
  | .ninf, .inf => .ninf
  | .ninf, .ninf => .inf
  | .inf, .fin b => if 0 < b then .inf else if b < 0 then .ninf else .nan
  | .fin a, .inf => if 0 < a then .inf else if a < 0 then .ninf else .nan
  | .ninf, .fin b => if 0 < b then .ninf else if b < 0 then .inf else .nan
  | .fin a, .ninf => if 0 < a then .ninf else if a < 0 then .inf else .nan
  | .fin a, .fin b => .fin (a * b)

/-- IEEE-754 division of two `f32` values (`x / y` in Rust), with exact
finite arithmetic.  A finite divisor `0` stands for `+0.0` (the only zero
the embedded code divides by), so `x / 0` is `+inf`, `-inf` or `NaN`
according to the sign of `x`; division never panics. -/
def FP.div : FP → FP → FP
  | .nan, _ => .nan
  | _, .nan => .nan
  | .inf, .inf => .nan
  | .inf, .ninf => .nan
  | .ninf, .inf => .nan
  | .ninf, .ninf => .nan
  | .inf, .fin b => if 0 ≤ b then .inf else .ninf
  | .ninf, .fin b => if 0 ≤ b then .ninf else .inf
  | .fin _, .inf => .fin 0
  | .fin _, .ninf => .fin 0
  | .fin a, .fin b =>
      if b = 0 then (if a = 0 then .nan else if 0 < a then .inf else .ninf)
      else .fin (a / b)

instance : Neg FP := ⟨FP.neg⟩

instance : Add FP := ⟨FP.add⟩

instance : Sub FP := ⟨FP.sub⟩

instance : Mul FP := ⟨FP.mul⟩

instance : Div FP := ⟨FP.div⟩

instance (n : ℕ) : OfNat FP n := ⟨.fin (OfNat.ofNat n)⟩

/-- The `u32 as f32` conversion applied to image dimensions
(`image_size.width as f32` etc. in `src/camera.rs`); exact on the sizes the
claims quantify over. -/
def fpOfNat (n : ℕ) : FP := .fin n

/-- `Vec3` from `src/util.rs`: a tuple struct of three `f32` components
(`Vec3(pub f32, pub f32, pub f32)`); `x`, `y`, `z` stand for fields
`.0`, `.1`, `.2`. -/
structure Vec3 where
  x : FP
  y : FP
  z : FP
  deriving DecidableEq

/-- `Vec3::i()` from `src/util.rs`. -/
def Vec3.i : Vec3 := ⟨1, 0, 0⟩

/-- `Vec3::j()` from `src/util.rs`. -/
def Vec3.j : Vec3 := ⟨0, 1, 0⟩

/-- `Vec3::k()` from `src/util.rs`. -/
def Vec3.k : Vec3 := ⟨0, 0, 1⟩

/-- `Vec3::origin()` from `src/util.rs`. -/
def Vec3.origin : Vec3 := ⟨0, 0, 0⟩

/-- `Vec3::as_array()` from `src/util.rs`: the `[f32; 3]` view written into
GPU buffers via `bytemuck::cast_slice`. -/
def Vec3.as_array (v : Vec3) : List FP := [v.x, v.y, v.z]

/-- `impl Add for Vec3` from `src/util.rs`. -/
def Vec3.add (a b : Vec3) : Vec3 := ⟨a.x + b.x, a.y + b.y, a.z + b.z⟩

/-- `impl Sub for Vec3` from `src/util.rs`. -/
def Vec3.sub (a b : Vec3) : Vec3 := ⟨a.x - b.x, a.y - b.y, a.z - b.z⟩

/-- `impl Neg for Vec3` from `src/util.rs`. -/
def Vec3.neg (a : Vec3) : Vec3 := ⟨-a.x, -a.y, -a.z⟩

/-- `impl Mul<f32> for Vec3` from `src/util.rs` (componentwise scalar
multiplication). -/
def Vec3.mulS (a : Vec3) (s : FP) : Vec3 := ⟨a.x * s, a.y * s, a.z * s⟩

/-- `impl Div<f32> for Vec3` from `src/util.rs` (componentwise scalar
division). -/
def Vec3.divS (a : Vec3) (s : FP) : Vec3 := ⟨a.x / s, a.y / s, a.z / s⟩

instance : Add Vec3 := ⟨Vec3.add⟩

instance : Sub Vec3 := ⟨Vec3.sub⟩

instance : Neg Vec3 := ⟨Vec3.neg⟩

instance : HMul Vec3 FP Vec3 := ⟨Vec3.mulS⟩

instance : HDiv Vec3 FP Vec3 := ⟨Vec3.divS⟩

/-- Modelled from the spec: `Point3` is imported by `src/main.rs`
(`use util::{Point3, Vec3}`) but its declaration is not among the source
files; per the spec, `Vec3` / `Point3` are "3-component float vectors with
standard arithmetic", so `Point3` is modelled as an alias of `Vec3`
(main.rs calls `Point3::origin()`, which `Vec3` provides). -/
def Point3 : Type := Vec3

/-- Modelled from the spec: `Point3::origin()`, as used by `src/main.rs`. -/
def Point3.origin : Point3 := Vec3.origin

/-- Modelled from the spec: the `Geometry` trait that `src/geometry/sphere.rs`
imports (`use super::Geometry`) is declared in a module not among the source
files; per the spec it is "an empty marker interface" declaring no methods,
so it is modelled as a type class with no fields. -/
class Geometry (α : Type) where

/-- `Sphere` from `src/geometry/sphere.rs`: exactly a (misspelled) `certre`
field and a `radius` field. -/
structure Sphere where
  certre : Vec3
  radius : FP

/-- `impl Geometry for Sphere {}` from `src/geometry/sphere.rs`: the empty
implementation of the marker trait. -/
instance : Geometry Sphere := {}

/-- `winit::dpi::PhysicalSize<u32>`: an image/window size in pixels. -/
structure PhysicalSize where
  width : ℕ
  height : ℕ
  deriving DecidableEq

/-- `Viewport` from `src/camera.rs`. -/
structure Viewport where
  width : FP
  height : FP
  focal_len : FP
  u : Vec3
  v : Vec3
  du : Vec3
  dv : Vec3
  deriving DecidableEq

/-- `Viewport::new` from `src/camera.rs`. -/
def Viewport.new (image_size : PhysicalSize) : Viewport :=
  let height : FP := 2
  let width := height * (fpOfNat image_size.width / fpOfNat image_size.height)
  let u := Vec3.mk width 0 0
  let v := Vec3.mk 0 (-height) 0
  let du := u / fpOfNat image_size.width
  let dv := v / fpOfNat image_size.height
  { height := height, width := width, focal_len := 1, u := u, v := v,
    du := du, dv := dv }

/-- `Viewport::with_focal_len` from `src/camera.rs`. -/
def Viewport.with_focal_len (vp : Viewport) (focal_len : FP) : Viewport :=
  { vp with focal_len := focal_len }

/-- `Viewport::resize` from `src/camera.rs`: reassigns `width`, `u`, `du`
and `dv` in place. -/
def Viewport.resize (vp : Viewport) (size : PhysicalSize) : Viewport :=
  let width := vp.height * (fpOfNat size.width / fpOfNat size.height)
  let u := Vec3.mk width 0 0
  let du := u / fpOfNat size.width
  let dv := vp.v / fpOfNat size.height
  { vp with width := width, u := u, du := du, dv := dv }

/-- `Camera` from `src/camera.rs`.  The `wgpu::Buffer` fields are modelled
by their contents: the `[f32; 3]` slice last written into each buffer
(`bytemuck::cast_slice(&v.as_array())`). -/
structure Camera where
  origin : Vec3
  viewport : Viewport
  origin_buffer : List FP
  viewport_buffers : List FP × List FP
  pixel_00_center : Vec3
  pixel_buffer : List FP

/-- `Camera::new` from `src/camera.rs`: builds the viewport, computes the
upper corner of the image plane and the center of pixel (0,0), and
initializes the four GPU buffers. -/
def Camera.new (image_size : PhysicalSize) : Camera :=
  let origin := Vec3.origin
  let origin_buffer := origin.as_array
  let viewport := Viewport.new image_size
  let viewport_buffers := (viewport.du.as_array, viewport.dv.as_array)
  let upper_corner :=
    origin - Vec3.mk 0 0 viewport.focal_len - (viewport.u / (2 : FP))
      - (viewport.v / (2 : FP))
  let pixel_00_center := upper_corner + (viewport.du + viewport.dv) / (2 : FP)
  let pixel_buffer := pixel_00_center.as_array
  { origin := origin, viewport := viewport, origin_buffer := origin_buffer,
    viewport_buffers := viewport_buffers, pixel_00_center := pixel_00_center,
    pixel_buffer := pixel_buffer }

/-- `Camera::update_pixel_buffer` from `src/camera.rs`: recomputes
`pixel_00_center` from the current origin and viewport and writes it into
the pixel buffer (`queue.write_buffer`). -/
def Camera.update_pixel_buffer (c : Camera) : Camera :=
  let upper_corner :=
    c.origin - Vec3.mk 0 0 c.viewport.focal_len - (c.viewport.u / (2 : FP))
      - (c.viewport.v / (2 : FP))
  let pixel_00_center :=
    upper_corner + (c.viewport.du + c.viewport.dv) / (2 : FP)
  { c with pixel_00_center := pixel_00_center,
           pixel_buffer := pixel_00_center.as_array }

/-- `Camera::resize_viewport` from `src/camera.rs`: resizes the viewport,
writes the new `du`/`dv` into their buffers, then updates the pixel buffer. -/
def Camera.resize_viewport (c : Camera) (size : PhysicalSize) : Camera :=
  let viewport := c.viewport.resize size
  let c' := { c with viewport := viewport,
                     viewport_buffers :=
                       (viewport.du.as_array, viewport.dv.as_array) }
  c'.update_pixel_buffer

/-- `wgpu::SurfaceError`: the error enum returned by
`Surface::get_current_texture`, matched on in `src/main.rs`. -/
inductive SurfaceError where
  | Timeout
  | Outdated
  | Lost
  | OutOfMemory
  deriving DecidableEq

/-- The observable effect of the redraw handler's `match self.render()`
arm in `App::window_event` (`src/main.rs`): either resize to a size, exit
the event loop, or print the error and continue with no state change. -/
inductive RedrawEffect where
  | resizeTo : PhysicalSize → RedrawEffect
  | exitLoop : RedrawEffect
  | printOnly : SurfaceError → RedrawEffect
  deriving DecidableEq

/-- The error arms of `match self.render()` in `App::window_event`
(`src/main.rs`): `Err(SurfaceError::Lost) => self.resize(self.size)`,
`Err(SurfaceError::OutOfMemory) => event_loop.exit()`,
`Err(e) => eprintln!("{:?}", e)`. -/
def handleRenderError (currentSize : PhysicalSize) :
    SurfaceError → RedrawEffect
  | .Lost => .resizeTo currentSize
  | .OutOfMemory => .exitLoop
  | e => .printOnly e

/-- The GPU commands `App::render` (`src/main.rs`) records and submits,
in order.  `setBindGroupCompute` binds the storage texture for writing;
`setBindGroupRender` binds the same off-screen texture and the sampler
for the fragment stage. -/
inductive GpuCmd where
  | beginComputePass
  | setPipelineCompute
  | setBindGroupCompute
  | dispatchWorkgroups : ℕ → ℕ → ℕ → GpuCmd
  | endComputePass
  | beginRenderPass
  | setPipelineRender
  | setBindGroupRender
  | draw : ℕ → ℕ → GpuCmd
  | endRenderPass
  | submit
  | present
  deriving DecidableEq

/-- `true` on commands recorded inside the compute pass of `App::render`. -/
def GpuCmd.isComputeCmd : GpuCmd → Bool
  | .beginComputePass => true
  | .setPipelineCompute => true
  | .setBindGroupCompute => true
  | .dispatchWorkgroups _ _ _ => true
  | .endComputePass => true
  | _ => false

/-- `true` on commands recorded inside the render pass of `App::render`. -/
def GpuCmd.isRenderCmd : GpuCmd → Bool
  | .beginRenderPass => true
  | .setPipelineRender => true
  | .setBindGroupRender => true
  | .draw _ _ => true
  | .endRenderPass => true
  | _ => false

/-- The command sequence of a successful `App::render` (`src/main.rs`):
a compute pass dispatching `size.width * size.height * 1` workgroups (one
per pixel), then a render pass drawing vertices `0..6` of the full-screen
quad for instances `0..1`, then `queue.submit` and `output.present()`. -/
def renderTrace (size : PhysicalSize) : List GpuCmd :=
  [.beginComputePass, .setPipelineCompute, .setBindGroupCompute,
   .dispatchWorkgroups size.width size.height 1, .endComputePass,
   .beginRenderPass, .setPipelineRender, .setBindGroupRender,
   .draw 6 1, .endRenderPass, .submit, .present]

/-- `App::render` from `src/main.rs`: `surface.get_current_texture()?`
either fails with a `SurfaceError` (propagated by `?`, recording nothing)
or succeeds, in which case the full command sequence `renderTrace` is
recorded, submitted and presented. -/
def appRender (size : PhysicalSize)
    (acquire : Except SurfaceError Unit) :
    Except SurfaceError (List GpuCmd) :=
  match acquire with
  | .error e => .error e
  | .ok _ => .ok (renderTrace size)

/-- On the `FP` model, subtraction agrees with adding the negation
(true of IEEE-754 as well, since `x - y` and `x + (-y)` round the same
exact value and the special cases coincide). -/
theorem FP.sub_add_neg (a b : FP) : a - b = a + (-b) := by
  cases a <;> cases b <;> try rfl
  rename_i x y
  show FP.fin (x - y) = FP.fin (x + -y)
  rw [sub_eq_add_neg]

/-- On the `FP` model, multiplying by `-1.0` agrees with negation
(true of IEEE-754 as well, up to the sign of zero, which the model does
not track). -/
theorem FP.mul_negOne (a : FP) : a * (-(1 : FP)) = -a := by
  cases a with
  | fin q =>
      show FP.fin (q * (-1 : ℚ)) = FP.fin (-q)
      rw [mul_neg_one]
  | inf => decide
  | ninf => decide
  | nan => rfl

/-- Dividing any `FP` value by the finite zero never yields a finite
value: a finite dividend gives `NaN` or `±inf`, an infinite dividend stays
infinite, `NaN` stays `NaN`. -/
theorem FP.div_fin_zero_not_finite (a : FP) :
    (a / FP.fin 0).isFinite = false := by
  cases a with
  | fin q =>
      have h0 : FP.div (.fin q) (.fin 0)
          = if q = 0 then .nan else if 0 < q then .inf else .ninf := by
        simp [FP.div]
      show (FP.div (.fin q) (.fin 0)).isFinite = false
      rw [h0]
      split
      · rfl
      · split <;> rfl
  | inf => decide
  | ninf => decide
  | nan => rfl

/-- C1: for every image size, `Camera::new` and
`Camera::update_pixel_buffer` compute the world-space center of pixel
(0,0) as `origin - Vec3(0,0,focal_len) - u/2 - v/2 + (du + dv)/2`, i.e.
the upper corner of the image plane offset by half a pixel step in each
axis. -/
theorem camera_pixel00_center_formula :
    (∀ s : PhysicalSize,
      (Camera.new s).pixel_00_center =
        (Camera.new s).origin
          - Vec3.mk 0 0 (Camera.new s).viewport.focal_len
          - (Camera.new s).viewport.u / (2 : FP)
          - (Camera.new s).viewport.v / (2 : FP)
          + ((Camera.new s).viewport.du + (Camera.new s).viewport.dv)
              / (2 : FP))
  ∧ (∀ c : Camera,
      c.update_pixel_buffer.pixel_00_center =
        c.origin - Vec3.mk 0 0 c.viewport.focal_len
          - c.viewport.u / (2 : FP) - c.viewport.v / (2 : FP)
          + (c.viewport.du + c.viewport.dv) / (2 : FP)) :=
  ⟨fun _ => rfl, fun _ => rfl⟩

/-- C4: `Vec3` arithmetic is componentwise — addition, subtraction,
negation, scalar multiplication and scalar division each act independently
on the three components, and the components are otherwise unconstrained
(any triple of scalars is the component triple of some `Vec3`). -/
theorem vec3_componentwise :
    (∀ a b : Vec3, (a + b).x = a.x + b.x ∧ (a + b).y = a.y + b.y
       ∧ (a + b).z = a.z + b.z)
  ∧ (∀ a b : Vec3, (a - b).x = a.x - b.x ∧ (a - b).y = a.y - b.y
       ∧ (a - b).z = a.z - b.z)
  ∧ (∀ a : Vec3, (-a).x = -a.x ∧ (-a).y = -a.y ∧ (-a).z = -a.z)
  ∧ (∀ (a : Vec3) (s : FP), (a * s).x = a.x * s ∧ (a * s).y = a.y * s
       ∧ (a * s).z = a.z * s)
  ∧ (∀ (a : Vec3) (s : FP), (a / s).x = a.x / s ∧ (a / s).y = a.y / s
       ∧ (a / s).z = a.z / s)
  ∧ (∀ p q r : FP, ∃ v : Vec3, v.x = p ∧ v.y = q ∧ v.z = r) :=
  ⟨fun _ _ => ⟨rfl, rfl, rfl⟩, fun _ _ => ⟨rfl, rfl, rfl⟩,
   fun _ => ⟨rfl, rfl, rfl⟩, fun _ _ => ⟨rfl, rfl, rfl⟩,
   fun _ _ => ⟨rfl, rfl, rfl⟩,
   fun p q r => ⟨⟨p, q, r⟩, rfl, rfl, rfl⟩⟩

/-- C5: `Point3` aliases `Vec3` — it is the same 3-component float vector
type with the same arithmetic, and it provides the `Point3::origin()`
constructor that `src/main.rs` uses. -/
theorem point3_aliases_vec3 :
    Point3 = Vec3 ∧ Point3.origin = Vec3.origin :=
  ⟨rfl, rfl⟩

/-- C6: a `Sphere` holds exactly its `certre` and `radius` fields (two
spheres agreeing on both are equal, and every sphere is rebuilt from
them), and the `Geometry` marker it implements carries no methods or data
(any two `Geometry Sphere` instances are equal). -/
theorem sphere_geometry_marker :
    (∀ s : Sphere, s = ⟨s.certre, s.radius⟩)
  ∧ (∀ s t : Sphere, s.certre = t.certre → s.radius = t.radius → s = t)
  ∧ (∀ g₁ g₂ : Geometry Sphere, g₁ = g₂) := by
  refine ⟨fun s => rfl, ?_, ?_⟩
  · intro s t h₁ h₂
    cases s; cases t
    cases h₁; cases h₂
    rfl
  · intro g₁ g₂
    cases g₁; cases g₂
    rfl

/-- Witness for C6 at a concrete pair of spheres. -/
theorem sphere_geometry_marker_witness :
    (⟨Vec3.origin, 1⟩ : Sphere) = ⟨Vec3.origin, 1⟩ :=
  sphere_geometry_marker.2.1 ⟨Vec3.origin, 1⟩ ⟨Vec3.origin, 1⟩ rfl rfl

/-- C8: `Viewport::resize` leaves `height`, `focal_len` and `v` unchanged
(only `width`, `u`, `du`, `dv` are reassigned), and
`Camera::resize_viewport` leaves the camera's `origin` and the contents of
the origin GPU buffer unchanged. -/
theorem resize_preserves_fields (vp : Viewport) (c : Camera)
    (s : PhysicalSize) :
    (vp.resize s).height = vp.height
  ∧ (vp.resize s).focal_len = vp.focal_len
  ∧ (vp.resize s).v = vp.v
  ∧ (c.resize_viewport s).origin = c.origin
  ∧ (c.resize_viewport s).origin_buffer = c.origin_buffer :=
  ⟨rfl, rfl, rfl, rfl, rfl⟩

/-- C9: on `Vec3`, subtraction agrees with adding the negation, and
negation agrees with scalar multiplication by `-1.0`, exactly
componentwise. -/
theorem vec3_sub_neg_mul_agree (v w : Vec3) :
    v - w = v + (-w) ∧ -v = v * (-(1 : FP)) := by
  constructor
  · show Vec3.sub v w = Vec3.add v (Vec3.neg w)
    simp only [Vec3.sub, Vec3.add, Vec3.neg, FP.sub_add_neg]
  · show Vec3.neg v = Vec3.mulS v (-(1 : FP))
    simp only [Vec3.neg, Vec3.mulS, FP.mul_negOne]

/-- The `y` component of a `Vec3` divided by the scalar finite zero is
never finite. -/
theorem Vec3.div_zero_y_not_finite (a : Vec3) :
    ((a / FP.fin 0).y).isFinite = false :=
  FP.div_fin_zero_not_finite a.y

/-- C2: for every new size with positive width and height,
`Viewport::resize` establishes `width = height * (size.width /
size.height)`, `u = Vec3(width, 0, 0)`, `du = u / size.width` and
`dv = v / size.height`; and `Camera::resize_viewport` recomputes
`pixel_00_center` from the updated viewport and writes `du`, `dv` and
`pixel_00_center` into their GPU buffers. -/
theorem viewport_resize_math (c : Camera) (s : PhysicalSize)
    (hw : 0 < s.width) (hh : 0 < s.height) :
    ((c.viewport.resize s).width =
        (c.viewport.resize s).height * (fpOfNat s.width / fpOfNat s.height)
     ∧ (c.viewport.resize s).u = Vec3.mk (c.viewport.resize s).width 0 0
     ∧ (c.viewport.resize s).du = (c.viewport.resize s).u / fpOfNat s.width
     ∧ (c.viewport.resize s).dv = (c.viewport.resize s).v / fpOfNat s.height)
  ∧ ((c.resize_viewport s).pixel_00_center =
        (c.resize_viewport s).origin
          - Vec3.mk 0 0 (c.resize_viewport s).viewport.focal_len
          - (c.resize_viewport s).viewport.u / (2 : FP)
          - (c.resize_viewport s).viewport.v / (2 : FP)
          + ((c.resize_viewport s).viewport.du
              + (c.resize_viewport s).viewport.dv) / (2 : FP)
     ∧ (c.resize_viewport s).viewport = c.viewport.resize s
     ∧ (c.resize_viewport s).viewport_buffers =
         ((c.resize_viewport s).viewport.du.as_array,
          (c.resize_viewport s).viewport.dv.as_array)
     ∧ (c.resize_viewport s).pixel_buffer =
         (c.resize_viewport s).pixel_00_center.as_array) :=
  ⟨⟨rfl, rfl, rfl, rfl⟩, rfl, rfl, rfl, rfl⟩

/-- Witness for C2 at the camera built for a 4×2 image, resized to 2×2. -/
theorem viewport_resize_math_witness :
    (((Camera.new ⟨4, 2⟩).viewport.resize ⟨2, 2⟩).width =
        ((Camera.new ⟨4, 2⟩).viewport.resize ⟨2, 2⟩).height
          * (fpOfNat 2 / fpOfNat 2)
     ∧ ((Camera.new ⟨4, 2⟩).viewport.resize ⟨2, 2⟩).u =
         Vec3.mk ((Camera.new ⟨4, 2⟩).viewport.resize ⟨2, 2⟩).width 0 0
     ∧ ((Camera.new ⟨4, 2⟩).viewport.resize ⟨2, 2⟩).du =
         ((Camera.new ⟨4, 2⟩).viewport.resize ⟨2, 2⟩).u / fpOfNat 2
     ∧ ((Camera.new ⟨4, 2⟩).viewport.resize ⟨2, 2⟩).dv =
         ((Camera.new ⟨4, 2⟩).viewport.resize ⟨2, 2⟩).v / fpOfNat 2)
  ∧ (((Camera.new ⟨4, 2⟩).resize_viewport ⟨2, 2⟩).pixel_00_center =
        ((Camera.new ⟨4, 2⟩).resize_viewport ⟨2, 2⟩).origin
          - Vec3.mk 0 0
              ((Camera.new ⟨4, 2⟩).resize_viewport ⟨2, 2⟩).viewport.focal_len
          - ((Camera.new ⟨4, 2⟩).resize_viewport ⟨2, 2⟩).viewport.u / (2 : FP)
          - ((Camera.new ⟨4, 2⟩).resize_viewport ⟨2, 2⟩).viewport.v / (2 : FP)
          + (((Camera.new ⟨4, 2⟩).resize_viewport ⟨2, 2⟩).viewport.du
              + ((Camera.new ⟨4, 2⟩).resize_viewport ⟨2, 2⟩).viewport.dv)
              / (2 : FP)
     ∧ ((Camera.new ⟨4, 2⟩).resize_viewport ⟨2, 2⟩).viewport =
         (Camera.new ⟨4, 2⟩).viewport.resize ⟨2, 2⟩
     ∧ ((Camera.new ⟨4, 2⟩).resize_viewport ⟨2, 2⟩).viewport_buffers =
         (((Camera.new ⟨4, 2⟩).resize_viewport ⟨2, 2⟩).viewport.du.as_array,
          ((Camera.new ⟨4, 2⟩).resize_viewport ⟨2, 2⟩).viewport.dv.as_array)
     ∧ ((Camera.new ⟨4, 2⟩).resize_viewport ⟨2, 2⟩).pixel_buffer =
         ((Camera.new ⟨4, 2⟩).resize_viewport ⟨2, 2⟩).pixel_00_center.as_array) :=
  viewport_resize_math (Camera.new ⟨4, 2⟩) ⟨2, 2⟩ (by decide) (by decide)

/-- C3: the redraw handler's match on `SurfaceError`: `Lost` resizes with
the current size, `OutOfMemory` exits the event loop, and every other
variant only prints the error with no state change. -/
theorem surface_error_match (sz : PhysicalSize) :
    handleRenderError sz .Lost = .resizeTo sz
  ∧ handleRenderError sz .OutOfMemory = .exitLoop
  ∧ ∀ e : SurfaceError, e ≠ .Lost → e ≠ .OutOfMemory →
      handleRenderError sz e = .printOnly e := by
  refine ⟨rfl, rfl, ?_⟩
  intro e h₁ h₂
  cases e with
  | Timeout => rfl
  | Outdated => rfl
  | Lost => exact absurd rfl h₁
  | OutOfMemory => exact absurd rfl h₂

/-- Witness for C3 at a concrete size and the `Timeout` variant. -/
theorem surface_error_match_witness :
    handleRenderError ⟨640, 480⟩ .Timeout = .printOnly .Timeout :=
  (surface_error_match ⟨640, 480⟩).2.2 .Timeout (by decide) (by decide)

/-- C10: `Viewport::new` and `Viewport::resize` are total (the embedding
is a plain function on every size, mirroring that `f32` division never
panics), and a zero width or zero height yields a non-finite `width`,
`du` or `dv` component instead of an error. -/
theorem viewport_zero_dim_nonfinite (s : PhysicalSize) (vp : Viewport)
    (h : s.width = 0 ∨ s.height = 0) :
    ((Viewport.new s).width.isFinite = false
      ∨ (Viewport.new s).du.y.isFinite = false
      ∨ (Viewport.new s).dv.y.isFinite = false)
  ∧ ((vp.resize s).width.isFinite = false
      ∨ (vp.resize s).du.y.isFinite = false
      ∨ (vp.resize s).dv.y.isFinite = false) := by
  have h0 : fpOfNat 0 = FP.fin 0 := by simp [fpOfNat]
  rcases h with h | h
  · refine ⟨Or.inr (Or.inl ?_), Or.inr (Or.inl ?_)⟩
    · have hdu : (Viewport.new s).du = (Viewport.new s).u / fpOfNat s.width :=
        rfl
      rw [hdu, h, h0]
      exact Vec3.div_zero_y_not_finite _
    · have hdu : (vp.resize s).du = (vp.resize s).u / fpOfNat s.width := rfl
      rw [hdu, h, h0]
      exact Vec3.div_zero_y_not_finite _
  · refine ⟨Or.inr (Or.inr ?_), Or.inr (Or.inr ?_)⟩
    · have hdv : (Viewport.new s).dv = (Viewport.new s).v / fpOfNat s.height :=
        rfl
      rw [hdv, h, h0]
      exact Vec3.div_zero_y_not_finite _
    · have hdv : (vp.resize s).dv = (vp.resize s).v / fpOfNat s.height := rfl
      rw [hdv, h, h0]
      exact Vec3.div_zero_y_not_finite _

/-- Witness for C10 at the zero-width size 0×5, resizing the 4×2
viewport. -/
theorem viewport_zero_dim_nonfinite_witness :
    ((Viewport.new ⟨0, 5⟩).width.isFinite = false
      ∨ (Viewport.new ⟨0, 5⟩).du.y.isFinite = false
      ∨ (Viewport.new ⟨0, 5⟩).dv.y.isFinite = false)
  ∧ (((Viewport.new ⟨4, 2⟩).resize ⟨0, 5⟩).width.isFinite = false
      ∨ ((Viewport.new ⟨4, 2⟩).resize ⟨0, 5⟩).du.y.isFinite = false
      ∨ ((Viewport.new ⟨4, 2⟩).resize ⟨0, 5⟩).dv.y.isFinite = false) :=
  viewport_zero_dim_nonfinite ⟨0, 5⟩ (Viewport.new ⟨4, 2⟩) (Or.inl rfl)

/-- C7: on every successful redraw, `App::render` records the compute
pass (dispatching one workgroup per pixel) strictly before the render
pass (drawing the 6-vertex full-screen quad), and submits and presents
only after both: the trace splits into a compute-only segment, then a
render-only segment, then `submit` and `present`, so no compute-pass
command ever follows a render-pass command. -/
theorem render_pass_order (size : PhysicalSize)
    (acq : Except SurfaceError Unit) (tr : List GpuCmd)
    (h : appRender size acq = .ok tr) :
    tr = renderTrace size
  ∧ (∀ cmd : GpuCmd, cmd.isComputeCmd = true → cmd.isRenderCmd = false)
  ∧ ∃ pre post : List GpuCmd,
      tr = pre ++ post ++ [.submit, .present]
      ∧ (∀ cmd ∈ pre, cmd.isComputeCmd = true)
      ∧ (∀ cmd ∈ post, cmd.isRenderCmd = true)
      ∧ GpuCmd.dispatchWorkgroups size.width size.height 1 ∈ pre
      ∧ GpuCmd.draw 6 1 ∈ post := by
  have htr : tr = renderTrace size := by
    cases acq with
    | error e => simp [appRender] at h
    | ok u =>
        simp [appRender] at h
        exact h.symm
  subst htr
  refine ⟨rfl, ?_, ?_⟩
  · intro cmd hc
    cases cmd <;> simp [GpuCmd.isComputeCmd, GpuCmd.isRenderCmd] at hc ⊢
  · refine ⟨[.beginComputePass, .setPipelineCompute, .setBindGroupCompute,
        .dispatchWorkgroups size.width size.height 1, .endComputePass],
      [.beginRenderPass, .setPipelineRender, .setBindGroupRender,
        .draw 6 1, .endRenderPass], rfl, ?_, ?_, by simp, by simp⟩
    · intro cmd hcmd
      fin_cases hcmd <;> rfl
    · intro cmd hcmd
      fin_cases hcmd <;> rfl

/-- Witness for C7 at a 3×2 surface whose texture acquisition succeeds. -/
theorem render_pass_order_witness :
    renderTrace ⟨3, 2⟩ = renderTrace ⟨3, 2⟩
  ∧ (∀ cmd : GpuCmd, cmd.isComputeCmd = true → cmd.isRenderCmd = false)
  ∧ ∃ pre post : List GpuCmd,
      renderTrace ⟨3, 2⟩ = pre ++ post ++ [.submit, .present]
      ∧ (∀ cmd ∈ pre, cmd.isComputeCmd = true)
      ∧ (∀ cmd ∈ post, cmd.isRenderCmd = true)
      ∧ GpuCmd.dispatchWorkgroups 3 2 1 ∈ pre
      ∧ GpuCmd.draw 6 1 ∈ post :=
  render_pass_order ⟨3, 2⟩ (.ok ()) (renderTrace ⟨3, 2⟩) rfl
